import Mathlib

/-!
Verification development for the MLB play-by-play retrieval pipeline
(`a_get_mlb_schedule.py`, `b_get_mlb_pbp_data.py`, `c_get_mlb_pbp_stats.py`).

The Python modules are shallowly embedded: pure helpers become Lean
functions, the stateful fetch loop becomes explicit state passing over a
`FetchState`, fallible operations return `Except`/`Option`, and the
filesystem / network are abstracted to the attributes the code actually
reads (existence, byte size, parse success).
-/

/- ################################################################
   Section 1: Geometry Transform (c_get_mlb_pbp_stats.py, lines 242-245)

   spray_angle = np.degrees(np.arctan2(delta_x, delta_y))
   hit_distance = math.sqrt(delta_x**2 + delta_y**2)

   `arctan2` follows the IEEE/numpy convention: first argument is the
   "y-like" one.  The code passes delta_x first, deliberately.
   ################################################################ -/

/-- numpy `arctan2 y x` for real arguments (IEEE convention on the axes,
with `arctan2 0 0 = 0`). -/
noncomputable def arctan2 (y x : ℝ) : ℝ :=
  if 0 < x then Real.arctan (y / x)
  else if x < 0 then
    (if 0 ≤ y then Real.arctan (y / x) + Real.pi
     else Real.arctan (y / x) - Real.pi)
  else
    (if 0 < y then Real.pi / 2
     else if y < 0 then -(Real.pi / 2)
     else 0)

/-- numpy `np.degrees`: radians to degrees. -/
noncomputable def degrees (r : ℝ) : ℝ := r * 180 / Real.pi

/-- HOME_TEAM_COORD_X = 125.0 -/
def HOME_TEAM_COORD_X : ℝ := 125

/-- HOME_TEAM_COORD_Y = 199.0 -/
def HOME_TEAM_COORD_Y : ℝ := 199

/-- Embeds `spray_angle` as computed in `_extract_hit_data`:
`np.degrees(np.arctan2(coordx - 125.0, coordy - 199.0))`. -/
noncomputable def sprayAngle (x y : ℝ) : ℝ :=
  degrees (arctan2 (x - HOME_TEAM_COORD_X) (y - HOME_TEAM_COORD_Y))

/-- Embeds `hit_distance` as computed in `_extract_hit_data`:
`math.sqrt(delta_x**2 + delta_y**2)`. -/
noncomputable def hitDistance (x y : ℝ) : ℝ :=
  Real.sqrt ((x - HOME_TEAM_COORD_X) ^ 2 + (y - HOME_TEAM_COORD_Y) ^ 2)

/- ################################################################
   Section 2: Event Extractor data model (c_get_mlb_pbp_stats.py)

   The parsed JSON game document is embedded structurally: each `.get`
   chain in the source corresponds to an `Option` field here.  A field
   the source defaults to `{}` / `[]` is an `Option` of a structure /
   a plain list.  JSON numbers are embedded as `ℚ` (ids as `ℤ`),
   strings as `String`.
   ################################################################ -/

/-- Embeds `event["details"]` — only `isinplay` is read.  `none` models an
absent or null flag; Python then treats it as falsy. -/
structure Details where
  isinplay : Option Bool := none
deriving DecidableEq, Repr

/-- Embeds `hitdata["coordinates"]` with optional `coordx` / `coordy`. -/
structure Coordinates where
  coordx : Option ℚ := none
  coordy : Option ℚ := none
deriving DecidableEq, Repr

/-- Embeds `event["hitdata"]` fields read by `_extract_hit_data`. -/
structure HitData where
  coordinates : Option Coordinates := none
  location : Option String := none
  launchspeed : Option ℚ := none
  launchangle : Option ℚ := none
  trajectory : Option String := none
  hardness : Option String := none
  totaldistance : Option ℚ := none
deriving DecidableEq, Repr

/-- Embeds `event["count"]` (balls / strikes / outs). -/
structure PlayCount where
  outs : Option ℤ := none
  balls : Option ℤ := none
  strikes : Option ℤ := none
deriving DecidableEq, Repr

/-- One element of `play["playevents"]`. -/
structure PlayEvent where
  details : Option Details := none
  hitdata : Option HitData := none
  count : Option PlayCount := none
deriving DecidableEq, Repr

/-- Embeds `play["about"]`.  Fields the source defaults to the empty string
when missing are embedded as `Option` with `none` for that default. -/
structure About where
  starttime : Option String := none
  endtime : Option String := none
  halfinning : Option String := none
  inning : Option ℤ := none
  atbatindex : Option ℤ := none
deriving DecidableEq, Repr

/-- Embeds `play["result"]`. -/
structure PlayResult where
  eventtype : Option String := none
  description : Option String := none
deriving DecidableEq, Repr

/-- A person object (`matchup["batter"]` / `matchup["pitcher"]`). -/
structure Person where
  id : Option ℤ := none
  fullname : Option String := none
deriving DecidableEq, Repr

/-- A code object (`matchup["batside"]` / `matchup["pitchhand"]`). -/
structure CodeObj where
  code : Option String := none
deriving DecidableEq, Repr

/-- Embeds `play["matchup"]`. -/
structure Matchup where
  batter : Option Person := none
  batside : Option CodeObj := none
  pitcher : Option Person := none
  pitchhand : Option CodeObj := none
deriving DecidableEq, Repr

/-- One element of `game_data["allplays"]`. -/
structure Play where
  about : Option About := none
  result : Option PlayResult := none
  matchup : Option Matchup := none
  playevents : List PlayEvent := []
deriving DecidableEq, Repr

/-- A team object inside the per-inning hit breakdown. -/
structure TeamObj where
  id : Option ℤ := none
deriving DecidableEq, Repr

/-- One element of `inning["hits"]["home"]`. -/
structure TeamHit where
  team : Option TeamObj := none
deriving DecidableEq, Repr

/-- Embeds `inning["hits"]` — only the `"home"` list is read. -/
structure HitsObj where
  home : List TeamHit := []
deriving DecidableEq, Repr

/-- One element of `game_data["playsbyinning"]`. -/
structure Inning where
  hits : Option HitsObj := none
deriving DecidableEq, Repr

/-- A parsed game document: the two top-level keys the extractor reads,
each defaulting to `[]` when missing. -/
structure GameDoc where
  allplays : List Play := []
  playsbyinning : List Inning := []
deriving DecidableEq, Repr

/-- The constant (per-play) part of an output row, as built by
`_extract_play_constants`. -/
structure PlayConstants where
  start_time : Option String
  end_time : Option String
  home_team : Option ℤ
  half_inning : Option String
  inning : Option ℤ
  at_bat_index : Option ℤ
  outcome : Option String
  description : Option String
  batter_id : Option ℤ
  batter_hand : Option String
  batter_name : Option String
  pitcher_id : Option ℤ
  pitcher_hand : Option String
  pitcher_name : Option String
deriving DecidableEq, Repr

/-- The per-event part of an output row, as built by `_extract_hit_data`.
The two derived real-valued fields (`spray_angle`, `hit_distance`) are
functions of the raw coordinates stored here; see `rowSprayAngle` /
`rowHitDistance`.  The `hit_sector` field comes from the external
collaborator `get_spray_sector` (not part of this repository). -/
structure HitRecord where
  count_outs : Option ℤ
  count_balls : Option ℤ
  count_strikes : Option ℤ
  location : Option String
  launch_speed : Option ℚ
  launch_angle : Option ℚ
  hit_trajectory : Option String
  hit_hardness : Option String
  total_distance : Option ℚ
  hit_location_x : ℚ
  hit_location_y : ℚ
deriving DecidableEq, Repr

/-- A full output row: `{**constants, **hit_data}` (the key sets are
disjoint, so the merge is a pair). -/
abbrev HitRow := PlayConstants × HitRecord

/-- The `spray_angle` value carried by an output row. -/
noncomputable def rowSprayAngle (r : HitRecord) : ℝ :=
  sprayAngle (r.hit_location_x : ℝ) (r.hit_location_y : ℝ)

/-- The `hit_distance` value carried by an output row. -/
noncomputable def rowHitDistance (r : HitRecord) : ℝ :=
  hitDistance (r.hit_location_x : ℝ) (r.hit_location_y : ℝ)

/-- Embeds `_extract_hit_data(event)`: returns `none` exactly when `coordx` or
`coordy` is missing/null; otherwise the flat hit record. -/
def extractHitData (event : PlayEvent) : Option HitRecord :=
  let hitdata := event.hitdata.getD {}
  let coordinates := hitdata.coordinates.getD {}
  match coordinates.coordx, coordinates.coordy with
  | some x, some y =>
    let count := event.count.getD {}
    some
      { count_outs := count.outs
        count_balls := count.balls
        count_strikes := count.strikes
        location := hitdata.location
        launch_speed := hitdata.launchspeed
        launch_angle := hitdata.launchangle
        hit_trajectory := hitdata.trajectory
        hit_hardness := hitdata.hardness
        total_distance := hitdata.totaldistance
        hit_location_x := x
        hit_location_y := y }
  | _, _ => none

/-- Embeds `_extract_home_team_id(playsbyinning)`: first non-null
`inning["hits"]["home"][i]["team"]["id"]` in scan order, else `none`. -/
def extractHomeTeamId (playsbyinning : List Inning) : Option ℤ :=
  playsbyinning.findSome? fun inning =>
    (inning.hits.getD {}).home.findSome? fun team =>
      (team.team.getD {}).id

/-- Embeds `_extract_play_constants(play, home_id)`. -/
def extractPlayConstants (play : Play) (home_id : Option ℤ) : PlayConstants :=
  let about := play.about.getD {}
  let result := play.result.getD {}
  let matchup := play.matchup.getD {}
  { start_time := about.starttime
    end_time := about.endtime
    home_team := home_id
    half_inning := about.halfinning
    inning := about.inning
    at_bat_index := about.atbatindex
    outcome := result.eventtype
    description := result.description
    batter_id := (matchup.batter.getD {}).id
    batter_hand := (matchup.batside.getD {}).code
    batter_name := (matchup.batter.getD {}).fullname
    pitcher_id := (matchup.pitcher.getD {}).id
    pitcher_hand := (matchup.pitchhand.getD {}).code
    pitcher_name := (matchup.pitcher.getD {}).fullname }

/-- The body of the inner event loop of `_process_game_file`: a row is
appended for `event` iff `event["details"]["isinplay"]` is truthy and
`_extract_hit_data` returns a record. -/
def eventRow (constants : PlayConstants) (event : PlayEvent) : Option HitRow :=
  if (event.details.getD {}).isinplay.getD false then
    (extractHitData event).map fun h => (constants, h)
  else
    none

/-- The document-level part of `_process_game_file` (after `json.load`):
walk `allplays`, per play build the constants once, then emit one row
per qualifying event, in order. -/
def processGameDoc (doc : GameDoc) : List HitRow :=
  let home_id := extractHomeTeamId doc.playsbyinning
  doc.allplays.flatMap fun play =>
    play.playevents.filterMap (eventRow (extractPlayConstants play home_id))

/- ################################################################
   Section 3: Cache Store (b_get_mlb_pbp_data.py)

   `_is_valid_cache` reads only existence and the stat size; the file
   content is never opened.  A cache file is abstracted to those
   attributes plus its (unread) content.
   ################################################################ -/

/-- Decidable equality for `Except`, used by the cache / file models. -/
instance instDecEqExcept {ε α : Type _} [DecidableEq ε] [DecidableEq α] :
    DecidableEq (Except ε α) := fun a b =>
  match a, b with
  | Except.error e, Except.error f => decidable_of_iff (e = f) (by simp)
  | Except.error _, Except.ok _ => isFalse (by simp)
  | Except.ok _, Except.error _ => isFalse (by simp)
  | Except.ok x, Except.ok y => decidable_of_iff (x = y) (by simp)

/-- MIN_VALID_FILE_SIZE = 2048 bytes. -/
def MIN_VALID_FILE_SIZE : Nat := 2048

/-- A cache path as seen by `_is_valid_cache`: whether it exists, what
`stat` returns (`Except.error` models an OSError while statting), and
the bytes the file would hold — which the function never reads. -/
structure CacheFile where
  exists' : Bool
  statSize : Except Unit Nat
  content : String
deriving DecidableEq, Repr

/-- Embeds `_is_valid_cache(cache_file)`: false when the path does not exist,
false on a stat error, otherwise `size > MIN_VALID_FILE_SIZE`. -/
def isValidCache (f : CacheFile) : Bool :=
  if f.exists' = false then false
  else
    match f.statSize with
    | Except.error _ => false
    | Except.ok size => decide (size > MIN_VALID_FILE_SIZE)

/- ################################################################
   Section 4: Fetch Orchestrator (`_process_games`, b_get_mlb_pbp_data.py)

   The loop is embedded as a fold over schedule rows carrying an
   explicit state.  The filesystem cache is an association list from
   derived game paths to the byte size of the stored artifact (the only
   attribute downstream logic reads); the remote service and the write
   syscall are an environment of pure functions, constant across runs
   of an unchanged world.  A fetched document is abstracted to the byte
   size of its JSON serialization.
   ################################################################ -/

/-- The cache path `cache_dir/<year>/GAMEPK_<id>_<home>_VS_<away>.json`,
as its four determining components. -/
structure GamePath where
  year : ℤ
  gamePk : ℤ
  homeTeam : String
  awayTeam : String
deriving DecidableEq, Repr

/-- One row of the schedule as `_process_games` consumes it.
`gamePk = none` models a value on which `int(row.game_pk)` raises;
`dateYear = none` models a date on which `pd.to_datetime` raises,
otherwise it is the parsed year. -/
structure ScheduleRow where
  gamePk : Option ℤ
  dateYear : Option ℤ
  homeTeam : String
  awayTeam : String
deriving DecidableEq, Repr

/-- The derived cache path of a well-formed row. -/
def rowPath (gid yr : ℤ) (row : ScheduleRow) : GamePath :=
  { year := yr, gamePk := gid, homeTeam := row.homeTeam, awayTeam := row.awayTeam }

/-- The world outside the loop: the remote service (`.ok size` is a
successful fetch whose document serializes to `size` bytes, `.error`
a raised request failure) and whether a write to a given path
succeeds. -/
structure FetchEnv where
  fetch : ℤ → Except Unit Nat
  saveOk : GamePath → Bool

/-- On-disk cache state: path to stored byte size. -/
abbrev DiskCache := List (GamePath × Nat)

/-- Look up the stored size of a path (the most recent write wins). -/
def diskLookup : DiskCache → GamePath → Option Nat
  | [], _ => none
  | e :: t, p => if e.1 = p then some e.2 else diskLookup t p

/-- Overwrite-or-create: `json.dump` to the path replaces the artifact
wholesale.  The new entry shadows any earlier one under `diskLookup`. -/
def diskWrite (cache : DiskCache) (p : GamePath) (size : Nat) : DiskCache :=
  (p, size) :: cache

/-- Embeds `_is_valid_cache` applied to a path of the modelled disk (the path
exists iff the cache holds it; stat succeeds on the modelled disk). -/
def diskValid (cache : DiskCache) (p : GamePath) : Bool :=
  match diskLookup cache p with
  | none => false
  | some size => decide (size > MIN_VALID_FILE_SIZE)

/-- Loop state of `_process_games`: the disk plus the run counters.
`fetchCalls` and `writes` instrument the network and write effects so
the run can be observed; they are not variables of the Python code. -/
structure FetchState where
  cache : DiskCache
  cachedCount : Nat
  skippedCount : Nat
  fetchCalls : Nat
  writes : Nat
deriving DecidableEq, Repr

/-- What happened to one game: skipped via valid cache, fetched and
cached, or an exception reached the per-game handler (which logs a
warning and continues). -/
inductive GameOutcome where
  | skipped
  | cachedOk
  | failed (e : String)
deriving DecidableEq, Repr

/-- The body of the per-row `try` block of `_process_games`, including
the effects that happen before any raise.  Control flow mirrors the
source: parse the row, derive the path, skip when `not force_refresh`
and the cache is valid, otherwise fetch (a network call even when it
fails), then save (incrementing `cached_count` only on success). -/
def stepGame (env : FetchEnv) (force_refresh : Bool) (st : FetchState)
    (row : ScheduleRow) : GameOutcome × FetchState :=
  match row.gamePk, row.dateYear with
  | some gid, some yr =>
    let path := rowPath gid yr row
    if !force_refresh && diskValid st.cache path then
      (GameOutcome.skipped, { st with skippedCount := st.skippedCount + 1 })
    else
      let st1 := { st with fetchCalls := st.fetchCalls + 1 }
      match env.fetch gid with
      | Except.error _ => (GameOutcome.failed "fetch", st1)
      | Except.ok size =>
        if env.saveOk path then
          (GameOutcome.cachedOk,
           { st1 with
               cache := diskWrite st1.cache path size
               writes := st1.writes + 1
               cachedCount := st1.cachedCount + 1 })
        else
          (GameOutcome.failed "save", st1)
  | _, _ => (GameOutcome.failed "row", st)

/-- Embeds `_process_games`: fold the per-row step over the schedule; the
`except` clause logs and continues, so the fold always keeps the state
component whatever the outcome. -/
def processGames (env : FetchEnv) (force_refresh : Bool) (st : FetchState)
    (rows : List ScheduleRow) : FetchState :=
  rows.foldl (fun s row => (stepGame env force_refresh s row).2) st

/-- A fresh invocation of the orchestrator over an existing disk:
counters start at zero, the cache directory is whatever the previous
run left. -/
def freshRun (cache : DiskCache) : FetchState :=
  { cache := cache, cachedCount := 0, skippedCount := 0, fetchCalls := 0, writes := 0 }

/- ################################################################
   Section 5: Schedule validation (`_load_and_validate_schedule`)

   The dataframe is embedded as a column list plus rows mapping column
   names to "value present" (false = NaN).  `dropna(subset=...)` on a
   column absent from the frame raises `KeyError` naming the absent
   subset labels; that happens on line 121, before the required-column
   check on lines 128-133.
   ################################################################ -/

/-- A row of the schedule CSV: per column, whether the value is
non-null. -/
abbrev CsvRow := List (String × Bool)

/-- The loaded dataframe. -/
structure ScheduleTable where
  cols : List String
  rows : List CsvRow
deriving DecidableEq, Repr

/-- How `_load_and_validate_schedule` can raise. -/
inductive SchedErr where
  | keyError (missing : List String)
  | valueError (missing : List String)
deriving DecidableEq, Repr

/-- The `dropna` subset on line 121. -/
def dropnaSubset : List String := ["game_pk", "home_id", "away_id"]

/-- REQUIRED_SCHEDULE_COLUMNS. -/
def requiredScheduleColumns : List String :=
  ["game_pk", "date", "home_team", "away_team"]

/-- Embeds `_load_and_validate_schedule` after the CSV is read: first the
`dropna(subset=[...])` (raising `KeyError` with the subset labels
absent from the frame), then the required-column check (raising
`ValueError` naming the missing required columns). -/
def loadAndValidateSchedule (t : ScheduleTable) : Except SchedErr ScheduleTable :=
  let missSubset := dropnaSubset.filter fun c => ¬ t.cols.contains c
  if missSubset ≠ [] then
    Except.error (SchedErr.keyError missSubset)
  else
    let rows' := t.rows.filter fun r =>
      dropnaSubset.all fun c => ((r.find? fun e => e.1 = c).map (·.2)).getD false
    let missing := requiredScheduleColumns.filter fun c => ¬ t.cols.contains c
    if missing ≠ [] then
      Except.error (SchedErr.valueError missing)
    else
      Except.ok { cols := t.cols, rows := rows' }

/- ################################################################
   Section 6: Compilation Pass (`compile_play_events`)

   A season folder is its existence / directory flags and its JSON file
   list; a file is its stat size plus its parse result.  A per-file
   exception is caught by the loop (log, continue), so a failing file
   contributes no rows.
   ################################################################ -/

/-- MIN_FILE_SIZE = 100 bytes (the smaller, extractor-side guard). -/
def MIN_FILE_SIZE : Nat := 100

/-- One cached JSON file as `_process_game_file` observes it. -/
structure FileInput where
  size : Nat
  parse : Except Unit GameDoc
deriving DecidableEq, Repr

/-- A season cache folder as `compile_play_events` observes it. -/
structure FolderInput where
  exists' : Bool
  isDir : Bool
  files : List FileInput
deriving DecidableEq, Repr

/-- How `compile_play_events` can raise (all `ValueError`s). -/
inductive CompileErr where
  | pathDoesNotExist
  | notADirectory
  | noJsonFiles
  | noHitEvents
deriving DecidableEq, Repr

/-- Embeds `_process_game_file` on one file, with the enclosing try/except
folded in: undersized files are skipped, a parse error is logged and
contributes nothing, otherwise the document is walked. -/
def processGameFile (f : FileInput) : List HitRow :=
  if f.size < MIN_FILE_SIZE then []
  else
    match f.parse with
    | Except.error _ => []
    | Except.ok doc => processGameDoc doc

/-- Embeds `compile_play_events`: validate the folder, require at least one
JSON file, extract across all files, and fail with the explicit
empty-result error when no row was produced. -/
def compilePlayEvents (folder : FolderInput) : Except CompileErr (List HitRow) :=
  if folder.exists' = false then Except.error CompileErr.pathDoesNotExist
  else if folder.isDir = false then Except.error CompileErr.notADirectory
  else if folder.files = [] then Except.error CompileErr.noJsonFiles
  else
    let data := folder.files.flatMap processGameFile
    if data = [] then Except.error CompileErr.noHitEvents
    else Except.ok data

/- ################################################################
   Section 7: `_to_dict` (b_get_mlb_pbp_data.py lines 276-296, identical
   copy in a_get_mlb_schedule.py lines 245-265)

   A Python runtime value is one of: a dict, a list, an object carrying
   a `__dict__`, or anything else (a primitive).  The mutual inductive
   below captures exactly that shape; an `atom` stands for any
   primitive, which `_to_dict` returns unchanged.
   ################################################################ -/

mutual
/-- A Python value as `_to_dict` discriminates it. -/
inductive PyVal where
  | atom : String → PyVal
  | dict : PyFields → PyVal
  | list : PyList → PyVal
  | obj : PyFields → PyVal
/-- A Python list of values. -/
inductive PyList where
  | nil : PyList
  | cons : PyVal → PyList → PyList
/-- Key/value items of a dict or of an object's `vars(...)`. -/
inductive PyFields where
  | nil : PyFields
  | cons : String → PyVal → PyFields → PyFields
end

mutual
/-- Embeds `_to_dict(obj)`: dicts and lists are converted element-wise, an
object becomes the dict of its non-underscore attributes, anything
else is returned as is. -/
def toDict : PyVal → PyVal
  | PyVal.atom s => PyVal.atom s
  | PyVal.dict kvs => PyVal.dict (toDictFields kvs)
  | PyVal.list xs => PyVal.list (toDictList xs)
  | PyVal.obj kvs => PyVal.dict (objFields kvs)
/-- Embeds `[_to_dict(item) for item in obj]`. -/
def toDictList : PyList → PyList
  | PyList.nil => PyList.nil
  | PyList.cons v rest => PyList.cons (toDict v) (toDictList rest)
/-- Embeds `{k: _to_dict(v) for k, v in obj.items()}`. -/
def toDictFields : PyFields → PyFields
  | PyFields.nil => PyFields.nil
  | PyFields.cons k v rest => PyFields.cons k (toDict v) (toDictFields rest)
/-- Embeds `{k: _to_dict(v) for k, v in vars(obj).items() if not k.startswith("_")}`. -/
def objFields : PyFields → PyFields
  | PyFields.nil => PyFields.nil
  | PyFields.cons k v rest =>
    if k.startsWith "_" then objFields rest
    else PyFields.cons k (toDict v) (objFields rest)
end

mutual
/-- A value already made only of plain dicts, lists and primitives
(no `obj` anywhere). -/
def isPlain : PyVal → Bool
  | PyVal.atom _ => true
  | PyVal.dict kvs => isPlainFields kvs
  | PyVal.list xs => isPlainList xs
  | PyVal.obj _ => false
/-- Embeds `isPlain` over a list. -/
def isPlainList : PyList → Bool
  | PyList.nil => true
  | PyList.cons v rest => isPlain v && isPlainList rest
/-- Embeds `isPlain` over dict items. -/
def isPlainFields : PyFields → Bool
  | PyFields.nil => true
  | PyFields.cons _ v rest => isPlain v && isPlainFields rest
end

/- ################################################################
   Theorems
   ################################################################ -/

/-- Helper: `_extract_hit_data` produces a record exactly when both
coordinates are present. -/
theorem extractHitData_isSome (ev : PlayEvent) :
    (extractHitData ev).isSome =
      (((ev.hitdata.getD {}).coordinates.getD {}).coordx.isSome &&
       ((ev.hitdata.getD {}).coordinates.getD {}).coordy.isSome) := by
  rcases hx : ((ev.hitdata.getD {}).coordinates.getD {}).coordx with _ | x <;>
    rcases hy : ((ev.hitdata.getD {}).coordinates.getD {}).coordy with _ | y <;>
    simp [extractHitData, hx, hy]

/-- C1: for every parsed game document the extractor emits rows exactly
through `eventRow`, and `eventRow` produces a row for an event iff the
event's `isinplay` flag is set (truthy) and both hit coordinates are
present and non-null. -/
theorem hit_event_emission_iff :
    (∀ doc : GameDoc,
      processGameDoc doc =
        doc.allplays.flatMap fun play =>
          play.playevents.filterMap
            (eventRow (extractPlayConstants play (extractHomeTeamId doc.playsbyinning)))) ∧
    ∀ (c : PlayConstants) (ev : PlayEvent),
      (eventRow c ev).isSome = true ↔
        ((ev.details.getD {}).isinplay = some true ∧
         ((ev.hitdata.getD {}).coordinates.getD {}).coordx ≠ none ∧
         ((ev.hitdata.getD {}).coordinates.getD {}).coordy ≠ none) := by
  refine ⟨fun doc => rfl, fun c ev => ?_⟩
  rcases hin : (ev.details.getD {}).isinplay with _ | b
  · simp [eventRow, hin]
  · cases b
    · simp [eventRow, hin]
    · simp [eventRow, hin, extractHitData_isSome, Option.isSome_iff_ne_none]

/-- C2: the derived geometry of every hit record is
`degrees (arctan2 (x - 125) (y - 199))` and the Euclidean distance to
(125, 199); at the reference point both are 0, and at (125, 99) the
spray angle is 180 degrees and the distance 100. -/
theorem hit_geometry_spec :
    (∀ r : HitRecord,
      rowSprayAngle r =
        degrees (arctan2 ((r.hit_location_x : ℝ) - 125) ((r.hit_location_y : ℝ) - 199)) ∧
      rowHitDistance r =
        Real.sqrt (((r.hit_location_x : ℝ) - 125) ^ 2 + ((r.hit_location_y : ℝ) - 199) ^ 2)) ∧
    sprayAngle 125 199 = 0 ∧ hitDistance 125 199 = 0 ∧
    sprayAngle 125 99 = 180 ∧ hitDistance 125 99 = 100 := by
  refine ⟨fun r => ⟨rfl, rfl⟩, ?_, ?_, ?_, ?_⟩
  · simp [sprayAngle, degrees, arctan2, HOME_TEAM_COORD_X, HOME_TEAM_COORD_Y]
  · simp [hitDistance, HOME_TEAM_COORD_X, HOME_TEAM_COORD_Y]
  · have h : arctan2 ((125 : ℝ) - 125) ((99 : ℝ) - 199) = Real.pi := by
      norm_num [arctan2]
    rw [sprayAngle, HOME_TEAM_COORD_X, HOME_TEAM_COORD_Y, h, degrees]
    field_simp
  · rw [hitDistance, HOME_TEAM_COORD_X, HOME_TEAM_COORD_Y]
    rw [show ((125 : ℝ) - 125) ^ 2 + ((99 : ℝ) - 199) ^ 2 = 100 ^ 2 by norm_num]
    exact Real.sqrt_sq (by norm_num)

/-- C3 counterexample: a path that exists with size exactly 2048 bytes —
not smaller than the threshold — is nevertheless reported invalid,
because the code requires the size to strictly exceed the threshold. -/
theorem is_valid_cache_at_threshold :
    (CacheFile.mk true (Except.ok 2048) "").exists' = true ∧
    (CacheFile.mk true (Except.ok 2048) "").statSize = Except.ok MIN_VALID_FILE_SIZE ∧
    ¬ (2048 < MIN_VALID_FILE_SIZE) ∧
    isValidCache (CacheFile.mk true (Except.ok 2048) "") = false := by
  decide

/-- C3 amended: `_is_valid_cache` is true iff the path exists, stat
succeeds and the size strictly exceeds 2048 bytes; it is false on a
nonexistent path or a stat error, and it never reads the content. -/
theorem is_valid_cache_spec (f : CacheFile) :
    (isValidCache f = true ↔
      f.exists' = true ∧ ∃ n, f.statSize = Except.ok n ∧ MIN_VALID_FILE_SIZE < n) ∧
    (∀ g : CacheFile, f.exists' = g.exists' → f.statSize = g.statSize →
      isValidCache f = isValidCache g) := by
  constructor
  · rcases f with ⟨e, s, c⟩
    cases e
    · simp [isValidCache]
    · cases s <;> simp [isValidCache]
  · intro g h1 h2
    unfold isValidCache
    rw [h1, h2]

/-- C3 witness: the amended theorem applied to two files equal in
existence and stat but with different content. -/
theorem is_valid_cache_spec_witness :
    isValidCache (CacheFile.mk true (Except.ok 4096) "aa") =
      isValidCache (CacheFile.mk true (Except.ok 4096) "bb") :=
  (is_valid_cache_spec (CacheFile.mk true (Except.ok 4096) "aa")).2
    (CacheFile.mk true (Except.ok 4096) "bb") rfl rfl

/-- The spec's description of home-team lookup: flatten the per-inning
hit breakdown in order, keep the non-null ids under the "home" key, and
take the first. -/
def firstHomeIdScan (playsbyinning : List Inning) : Option ℤ :=
  ((playsbyinning.flatMap fun inning => (inning.hits.getD {}).home).filterMap
    fun team => (team.team.getD {}).id).head?

/-- Helper: a row produced by `eventRow c` carries exactly the constants
`c`. -/
theorem eventRow_fst {c : PlayConstants} {ev : PlayEvent} {r : HitRow}
    (h : eventRow c ev = some r) : r.1 = c := by
  unfold eventRow at h
  split at h
  · cases hx : extractHitData ev with
    | none => rw [hx] at h; cases h
    | some hd =>
      rw [hx] at h
      simp only [Option.map_some'] at h
      cases h
      rfl
  · cases h

/-- C9: the home team id attached to every emitted row is the first
non-null id found under the "home" key scanning the per-inning hit
breakdown in order (`none` when absent, and the document is still
processed — `processGameDoc` is total and emits its rows with a null
home id in that case). -/
theorem home_team_id_first_scan (doc : GameDoc) :
    extractHomeTeamId doc.playsbyinning = firstHomeIdScan doc.playsbyinning ∧
    ∀ r ∈ processGameDoc doc, r.1.home_team = extractHomeTeamId doc.playsbyinning := by
  constructor
  · rw [extractHomeTeamId, firstHomeIdScan, List.filterMap_flatMap,
      List.head?_flatMap]
    simp only [List.filterMap_head?]
  · intro r hr
    simp only [processGameDoc] at hr
    rcases List.mem_flatMap.mp hr with ⟨play, _, hrr⟩
    rcases List.mem_filterMap.mp hrr with ⟨ev, _, hev⟩
    rw [eventRow_fst hev]
    rfl

/-- A sample in-play event with coordinates (150, 175). -/
def sampleEvent : PlayEvent :=
  { details := some { isinplay := some true }
    hitdata := some { coordinates := some { coordx := some 150, coordy := some 175 } }
    count := some { outs := some 1, balls := some 0, strikes := some 2 } }

/-- A sample play holding the sample event. -/
def samplePlay : Play := { playevents := [sampleEvent] }

/-- A sample parsed document whose hit breakdown names home team 119. -/
def sampleDoc : GameDoc :=
  { allplays := [samplePlay]
    playsbyinning := [{ hits := some { home := [{ team := some { id := some 119 } }] } }] }

/-- The row `processGameDoc` emits for the sample document. -/
def sampleRow : HitRow :=
  (extractPlayConstants samplePlay (some 119),
   { count_outs := some 1, count_balls := some 0, count_strikes := some 2,
     location := none, launch_speed := none, launch_angle := none,
     hit_trajectory := none, hit_hardness := none, total_distance := none,
     hit_location_x := 150, hit_location_y := 175 })

/-- C9 witness: the theorem applied to the sample document and its
emitted row. -/
theorem home_team_id_first_scan_witness :
    sampleRow ∈ processGameDoc sampleDoc ∧
    sampleRow.1.home_team = extractHomeTeamId sampleDoc.playsbyinning :=
  ⟨by decide, (home_team_id_first_scan sampleDoc).2 sampleRow (by decide)⟩

/-- C6: `compile_play_events` never returns an empty table — an `ok`
result is nonempty — and when the folder checks pass, at least one JSON
file exists, yet zero rows are extracted across all files, it raises
the explicit empty-result error. -/
theorem compile_zero_records_fails (folder : FolderInput) :
    (∀ rows, compilePlayEvents folder = Except.ok rows → rows ≠ []) ∧
    (folder.exists' = true → folder.isDir = true → folder.files ≠ [] →
      folder.files.flatMap processGameFile = [] →
      compilePlayEvents folder = Except.error CompileErr.noHitEvents) := by
  constructor
  · intro rows h
    unfold compilePlayEvents at h
    split at h
    · cases h
    split at h
    · cases h
    split at h
    · cases h
    have h' : (if folder.files.flatMap processGameFile = [] then
          (Except.error CompileErr.noHitEvents : Except CompileErr (List HitRow))
        else Except.ok (folder.files.flatMap processGameFile)) = Except.ok rows := h
    split at h'
    · cases h'
    · rename_i hne
      cases h'
      exact hne
  · intro h1 h2 h3 h4
    unfold compilePlayEvents
    rw [h1, h2]
    simp [h3, h4]

/-- A sample season folder: one undersized file, one parse failure —
every file contributes zero rows. -/
def sampleEmptyFolder : FolderInput :=
  { exists' := true, isDir := true
    files := [{ size := 50, parse := Except.ok { allplays := [samplePlay] } },
              { size := 5000, parse := Except.error () }] }

/-- C6 witness: the theorem applied to the sample folder. -/
theorem compile_zero_records_fails_witness :
    compilePlayEvents sampleEmptyFolder = Except.error CompileErr.noHitEvents :=
  (compile_zero_records_fails sampleEmptyFolder).2 rfl rfl (by decide) (by decide)

/-- A schedule CSV missing the required columns `game_pk`, `date` and
`away_team` (the `dropna` subset columns `home_id` / `away_id` are also
incomplete). -/
def tableMissingMany : ScheduleTable :=
  { cols := ["home_id", "away_id", "home_team"], rows := [] }

/-- A schedule CSV missing only the required column `date`, with the
full `dropna` subset present. -/
def tableMissingDate : ScheduleTable :=
  { cols := ["game_pk", "home_id", "away_id", "home_team", "away_team"],
    rows := [] }

/-- C7: on a schedule missing required columns including `game_pk`, the
`dropna(subset=...)` call on line 121 raises a `KeyError` naming only
the missing subset labels — before the required-column check — so the
error does not name the missing required column `date`, contradicting
the function's own docstring ("Raises ValueError: If required columns
are missing").  Only when the `dropna` subset is fully present does the
intended `ValueError` naming the missing required set fire. -/
theorem schedule_validation_keyerror_precedes :
    loadAndValidateSchedule tableMissingMany = Except.error (SchedErr.keyError ["game_pk"]) ∧
    "date" ∈ requiredScheduleColumns ∧
    tableMissingMany.cols.contains "date" = false ∧
    "date" ∉ ["game_pk"] ∧
    loadAndValidateSchedule tableMissingDate = Except.error (SchedErr.valueError ["date"]) := by
  decide

/-- Helper: when the per-game body raises (any failure kind), the loop
state is unchanged except possibly for the network-call instrument:
counters and cache are untouched. -/
theorem stepGame_failed_state (env : FetchEnv) (fr : Bool) (st : FetchState)
    (row : ScheduleRow) (e : String)
    (h : (stepGame env fr st row).1 = GameOutcome.failed e) :
    (stepGame env fr st row).2 = st ∨
    (stepGame env fr st row).2 = { st with fetchCalls := st.fetchCalls + 1 } := by
  unfold stepGame at h ⊢
  rcases hg : row.gamePk with _ | gid <;> rcases hy : row.dateYear with _ | yr <;>
    simp only [hg, hy] at h ⊢
  · exact Or.inl trivial
  · exact Or.inl trivial
  · exact Or.inl trivial
  · cases hskip : (!fr && diskValid st.cache (rowPath gid yr row)) <;>
      simp only [hskip, Bool.false_eq_true, if_false, if_true] at h ⊢
    · cases hf : env.fetch gid <;> simp only [hf] at h ⊢
      · exact Or.inr trivial
      · cases hs : env.saveOk (rowPath gid yr row) <;>
          simp only [hs, Bool.false_eq_true, if_false, if_true] at h ⊢
        · exact Or.inr trivial
        · cases h
    · cases h

/-- C8: if processing one game fails — malformed reference, unparseable
date, network failure, or any other raise inside the per-game `try`
block — the handler logs a warning (`GameOutcome.failed` is exactly the
logged path), both run counters and the cache are unchanged for that
game, and the fold continues with the remaining games; the run itself
never aborts. -/
theorem game_failure_never_fatal (env : FetchEnv) (fr : Bool) (st : FetchState)
    (row : ScheduleRow) (rest : List ScheduleRow) (e : String)
    (h : (stepGame env fr st row).1 = GameOutcome.failed e) :
    (stepGame env fr st row).2.cachedCount = st.cachedCount ∧
    (stepGame env fr st row).2.skippedCount = st.skippedCount ∧
    (stepGame env fr st row).2.cache = st.cache ∧
    processGames env fr st (row :: rest) =
      processGames env fr (stepGame env fr st row).2 rest := by
  refine ⟨?_, ?_, ?_, rfl⟩ <;>
  · rcases stepGame_failed_state env fr st row e h with h2 | h2 <;> rw [h2]

/-- A malformed schedule row: `int(row.game_pk)` raises. -/
def rowMalformed : ScheduleRow :=
  { gamePk := none, dateYear := some 2024, homeTeam := "NYY", awayTeam := "BOS" }

/-- A well-formed schedule row for game 1. -/
def rowGame1 : ScheduleRow :=
  { gamePk := some 1, dateYear := some 2024, homeTeam := "NYY", awayTeam := "BOS" }

/-- A well-formed schedule row for game 2. -/
def rowGame2 : ScheduleRow :=
  { gamePk := some 2, dateYear := some 2024, homeTeam := "LAD", awayTeam := "SFG" }

/-- C8 witness: the theorem applied to a malformed row on a fresh run. -/
theorem game_failure_never_fatal_witness :
    (stepGame { fetch := fun _ => Except.ok 5000, saveOk := fun _ => true } false
        (freshRun []) rowMalformed).2.cachedCount = (freshRun []).cachedCount ∧
    (stepGame { fetch := fun _ => Except.ok 5000, saveOk := fun _ => true } false
        (freshRun []) rowMalformed).2.skippedCount = (freshRun []).skippedCount ∧
    (stepGame { fetch := fun _ => Except.ok 5000, saveOk := fun _ => true } false
        (freshRun []) rowMalformed).2.cache = (freshRun []).cache ∧
    processGames { fetch := fun _ => Except.ok 5000, saveOk := fun _ => true } false
        (freshRun []) (rowMalformed :: [rowGame1]) =
      processGames { fetch := fun _ => Except.ok 5000, saveOk := fun _ => true } false
        (stepGame { fetch := fun _ => Except.ok 5000, saveOk := fun _ => true } false
          (freshRun []) rowMalformed).2 [rowGame1] :=
  game_failure_never_fatal _ false (freshRun []) rowMalformed [rowGame1] "row" (by decide)

/-- An environment whose remote fetch always succeeds with a large
document but whose write fails for game 1's path only. -/
def envSaveFail : FetchEnv :=
  { fetch := fun _ => Except.ok 5000
    saveOk := fun p => decide (p.gamePk = 2) }

/-- C5 counterexample: with a write failure on game 1, the enclosing run
is not aborted — the loop swallows the raise from `_save_game_pbp`
(outcome `failed "save"`), processes game 2, and returns counters
`{cached := 1, skipped := 0}` after two network calls.  The write
failure was converted to a per-game skip, not surfaced as a fatal
error of the run. -/
theorem save_failure_not_fatal_counterexample :
    (stepGame envSaveFail false (freshRun []) rowGame1).1 = GameOutcome.failed "save" ∧
    (processGames envSaveFail false (freshRun []) [rowGame1, rowGame2]).cachedCount = 1 ∧
    (processGames envSaveFail false (freshRun []) [rowGame1, rowGame2]).skippedCount = 0 ∧
    (processGames envSaveFail false (freshRun []) [rowGame1, rowGame2]).fetchCalls = 2 := by
  decide

/-- C5 amended: a cache write failure does raise out of `_save_game_pbp`
(the body's outcome is `failed "save"`, the logged-error path), but the
per-game handler in `_process_games` catches it: the game's counters
and the cache are unchanged and the run continues with the next game. -/
theorem save_failure_caught_per_game (env : FetchEnv) (fr : Bool) (st : FetchState)
    (row : ScheduleRow) (rest : List ScheduleRow) (gid yr : ℤ) (sz : Nat)
    (hg : row.gamePk = some gid) (hy : row.dateYear = some yr)
    (hnoskip : (!fr && diskValid st.cache (rowPath gid yr row)) = false)
    (hf : env.fetch gid = Except.ok sz)
    (hs : env.saveOk (rowPath gid yr row) = false) :
    (stepGame env fr st row).1 = GameOutcome.failed "save" ∧
    (stepGame env fr st row).2.cachedCount = st.cachedCount ∧
    (stepGame env fr st row).2.skippedCount = st.skippedCount ∧
    (stepGame env fr st row).2.cache = st.cache ∧
    processGames env fr st (row :: rest) =
      processGames env fr (stepGame env fr st row).2 rest := by
  have hstep : stepGame env fr st row =
      (GameOutcome.failed "save", { st with fetchCalls := st.fetchCalls + 1 }) := by
    unfold stepGame
    simp only [hg, hy, hnoskip, hf, hs, Bool.false_eq_true, if_false]
  refine ⟨?_, ?_, ?_, ?_, rfl⟩ <;> rw [hstep]

/-- C5 witness: the amended theorem applied to the failing environment,
game 1 and a fresh run. -/
theorem save_failure_caught_per_game_witness :
    (stepGame envSaveFail false (freshRun []) rowGame1).1 = GameOutcome.failed "save" ∧
    (stepGame envSaveFail false (freshRun []) rowGame1).2.cachedCount =
      (freshRun []).cachedCount ∧
    (stepGame envSaveFail false (freshRun []) rowGame1).2.skippedCount =
      (freshRun []).skippedCount ∧
    (stepGame envSaveFail false (freshRun []) rowGame1).2.cache = (freshRun []).cache ∧
    processGames envSaveFail false (freshRun []) (rowGame1 :: [rowGame2]) =
      processGames envSaveFail false
        (stepGame envSaveFail false (freshRun []) rowGame1).2 [rowGame2] :=
  save_failure_caught_per_game envSaveFail false (freshRun []) rowGame1 [rowGame2]
    1 2024 5000 rfl rfl (by decide) rfl (by decide)

/-- An environment whose fetched documents serialize to only 100 bytes
(for instance, a game with no play data) and whose writes succeed. -/
def envSmallDoc : FetchEnv :=
  { fetch := fun _ => Except.ok 100, saveOk := fun _ => true }

/-- C4 counterexample: after a completed first run that cached game 1
(one fetch, one write), a second run with `force_refresh=False` over the
unchanged schedule performs another network call and another cache
write and skips nothing, because the 100-byte artifact fails the
2048-byte validity threshold.  This refutes unconditional idempotence
of the orchestrator. -/
theorem fetch_second_run_not_idempotent :
    (processGames envSmallDoc false (freshRun []) [rowGame1]).cachedCount = 1 ∧
    (processGames envSmallDoc false (freshRun []) [rowGame1]).fetchCalls = 1 ∧
    (processGames envSmallDoc false
        (freshRun (processGames envSmallDoc false (freshRun []) [rowGame1]).cache)
        [rowGame1]).fetchCalls = 1 ∧
    (processGames envSmallDoc false
        (freshRun (processGames envSmallDoc false (freshRun []) [rowGame1]).cache)
        [rowGame1]).writes = 1 ∧
    (processGames envSmallDoc false
        (freshRun (processGames envSmallDoc false (freshRun []) [rowGame1]).cache)
        [rowGame1]).skippedCount = 0 := by
  decide

/-- A schedule row the environment handles perfectly: parseable fields,
successful fetch of a document above the validity threshold, successful
write to its cache path. -/
def goodRow (env : FetchEnv) (row : ScheduleRow) : Prop :=
  ∃ gid yr sz, row.gamePk = some gid ∧ row.dateYear = some yr ∧
    env.fetch gid = Except.ok sz ∧ MIN_VALID_FILE_SIZE < sz ∧
    env.saveOk (rowPath gid yr row) = true

/-- Helper: a write changes validity only at the written path, where it
is the size test of the written artifact. -/
theorem diskValid_write (cache : DiskCache) (p q : GamePath) (sz : Nat) :
    diskValid (diskWrite cache p sz) q =
      if p = q then decide (MIN_VALID_FILE_SIZE < sz) else diskValid cache q := by
  by_cases h : p = q <;> simp [diskValid, diskWrite, diskLookup, h]

/-- Helper: on a good row with `force_refresh=False`, the step either
skips (cache already valid) or fetches and writes an above-threshold
artifact. -/
theorem stepGame_good (env : FetchEnv) (st : FetchState) (row : ScheduleRow)
    (h : goodRow env row) :
    ∃ gid yr, row.gamePk = some gid ∧ row.dateYear = some yr ∧
      ((diskValid st.cache (rowPath gid yr row) = true ∧
          stepGame env false st row =
            (GameOutcome.skipped, { st with skippedCount := st.skippedCount + 1 })) ∨
       (∃ sz, env.fetch gid = Except.ok sz ∧ MIN_VALID_FILE_SIZE < sz ∧
          stepGame env false st row =
            (GameOutcome.cachedOk,
             { st with
                 cache := diskWrite st.cache (rowPath gid yr row) sz
                 fetchCalls := st.fetchCalls + 1
                 writes := st.writes + 1
                 cachedCount := st.cachedCount + 1 }))) := by
  obtain ⟨gid, yr, sz, hg, hy, hf, hsz, hsave⟩ := h
  refine ⟨gid, yr, hg, hy, ?_⟩
  cases hv : diskValid st.cache (rowPath gid yr row)
  · refine Or.inr ⟨sz, hf, hsz, ?_⟩
    unfold stepGame
    simp only [hg, hy, hv, hf, hsave, Bool.not_false, Bool.true_and,
      Bool.false_eq_true, if_false, if_true]
  · refine Or.inl ⟨rfl, ?_⟩
    unfold stepGame
    simp only [hg, hy, hv, Bool.not_false, Bool.true_and, if_true]

/-- Helper: processing any list of good rows preserves cache validity at
every path (all writes are above the threshold). -/
theorem processGames_preserves_valid (env : FetchEnv) (rows : List ScheduleRow) :
    ∀ st : FetchState, (∀ r ∈ rows, goodRow env r) → ∀ q : GamePath,
      diskValid st.cache q = true →
      diskValid (processGames env false st rows).cache q = true := by
  induction rows with
  | nil => intro st _ q hv; exact hv
  | cons row rest ih =>
    intro st H q hv
    have Hrest : ∀ r ∈ rest, goodRow env r := fun r hr => H r (List.mem_cons_of_mem _ hr)
    show diskValid (processGames env false (stepGame env false st row).2 rest).cache q = true
    apply ih _ Hrest q
    rcases stepGame_good env st row (H row (List.mem_cons_self _ _)) with
      ⟨gid, yr, _, _, ⟨_, hstep⟩ | ⟨sz, _, hsz, hstep⟩⟩
    · rw [hstep]; exact hv
    · rw [hstep]
      show diskValid (diskWrite st.cache (rowPath gid yr row) sz) q = true
      rw [diskValid_write]
      by_cases hpq : rowPath gid yr row = q <;> simp [hpq, hsz, hv]

/-- Helper: after a run over good rows, every row's own cache path is
valid. -/
theorem processGames_all_valid (env : FetchEnv) (rows : List ScheduleRow) :
    ∀ st : FetchState, (∀ r ∈ rows, goodRow env r) →
      ∀ r ∈ rows, ∀ gid yr, r.gamePk = some gid → r.dateYear = some yr →
        diskValid (processGames env false st rows).cache (rowPath gid yr r) = true := by
  induction rows with
  | nil => intro st _ r hr; cases hr
  | cons row rest ih =>
    intro st H r hr gid yr hg hy
    have Hrest : ∀ x ∈ rest, goodRow env x := fun x hx => H x (List.mem_cons_of_mem _ hx)
    show diskValid (processGames env false (stepGame env false st row).2 rest).cache
      (rowPath gid yr r) = true
    rcases List.mem_cons.mp hr with rfl | hr'
    · rcases stepGame_good env st r (H r (List.mem_cons_self _ _)) with
        ⟨gid', yr', hg', hy', hcase⟩
      have egid : gid' = gid := Option.some.inj (hg'.symm.trans hg)
      have eyr : yr' = yr := Option.some.inj (hy'.symm.trans hy)
      rw [← egid, ← eyr]
      apply processGames_preserves_valid env rest _ Hrest
      rcases hcase with ⟨hvalid, hstep⟩ | ⟨sz, _, hsz, hstep⟩
      · rw [hstep]; exact hvalid
      · rw [hstep]
        show diskValid (diskWrite st.cache (rowPath gid' yr' r) sz) (rowPath gid' yr' r) = true
        rw [diskValid_write]
        simp [hsz]
    · exact ih _ Hrest r hr' gid yr hg hy

/-- Helper: when every row is well-formed and already valid in the
starting cache, a `force_refresh=False` run touches nothing and counts
every game as skipped. -/
theorem processGames_all_skip (env : FetchEnv) (rows : List ScheduleRow) :
    ∀ st : FetchState,
      (∀ r ∈ rows, ∃ gid yr, r.gamePk = some gid ∧ r.dateYear = some yr ∧
        diskValid st.cache (rowPath gid yr r) = true) →
      processGames env false st rows =
        { st with skippedCount := st.skippedCount + rows.length } := by
  induction rows with
  | nil => intro st _; cases st; simp [processGames]
  | cons row rest ih =>
    intro st H
    obtain ⟨gid, yr, hg, hy, hv⟩ := H row (List.mem_cons_self _ _)
    have hstep : stepGame env false st row =
        (GameOutcome.skipped, { st with skippedCount := st.skippedCount + 1 }) := by
      unfold stepGame
      simp only [hg, hy, hv, Bool.not_false, Bool.true_and, if_true]
    show processGames env false (stepGame env false st row).2 rest = _
    rw [hstep]
    show processGames env false { st with skippedCount := st.skippedCount + 1 } rest = _
    have Hrest : ∀ r ∈ rest, ∃ gid yr, r.gamePk = some gid ∧ r.dateYear = some yr ∧
        diskValid ({ st with skippedCount := st.skippedCount + 1 } : FetchState).cache
          (rowPath gid yr r) = true :=
      fun r hr => H r (List.mem_cons_of_mem _ hr)
    rw [ih _ Hrest]
    cases st
    simp
    omega

/-- C4 amended: running the orchestrator a second time with
`force_refresh=False` over an unchanged schedule performs zero network
calls, zero cache writes and zero cachings on the second run, counts
every game as skipped, and leaves the disk cache exactly as the first
run left it — provided the first run handled every game successfully
with a fetched document above the minimum-size validity threshold (the
counterexample shows the unconditional claim fails for undersized
documents). -/
theorem fetch_second_run_all_skipped (env : FetchEnv) (st0 : FetchState)
    (rows : List ScheduleRow) (H : ∀ r ∈ rows, goodRow env r) :
    (processGames env false (freshRun (processGames env false st0 rows).cache)
        rows).fetchCalls = 0 ∧
    (processGames env false (freshRun (processGames env false st0 rows).cache)
        rows).writes = 0 ∧
    (processGames env false (freshRun (processGames env false st0 rows).cache)
        rows).cachedCount = 0 ∧
    (processGames env false (freshRun (processGames env false st0 rows).cache)
        rows).skippedCount = rows.length ∧
    (processGames env false (freshRun (processGames env false st0 rows).cache)
        rows).cache = (processGames env false st0 rows).cache := by
  have hvalid : ∀ r ∈ rows, ∃ gid yr, r.gamePk = some gid ∧ r.dateYear = some yr ∧
      diskValid (freshRun (processGames env false st0 rows).cache).cache
        (rowPath gid yr r) = true := by
    intro r hr
    obtain ⟨gid, yr, sz, hg, hy, _, _, _⟩ := H r hr
    exact ⟨gid, yr, hg, hy, processGames_all_valid env rows st0 H r hr gid yr hg hy⟩
  rw [processGames_all_skip env rows _ hvalid]
  refine ⟨rfl, rfl, rfl, ?_, rfl⟩
  simp [freshRun]

/-- An environment whose fetches succeed with large documents and whose
writes always succeed. -/
def envBigDoc : FetchEnv :=
  { fetch := fun _ => Except.ok 5000, saveOk := fun _ => true }

/-- C4 witness: the amended theorem applied to a one-game schedule in
the well-behaved environment. -/
theorem fetch_second_run_all_skipped_witness :
    (processGames envBigDoc false
        (freshRun (processGames envBigDoc false (freshRun []) [rowGame1]).cache)
        [rowGame1]).fetchCalls = 0 ∧
    (processGames envBigDoc false
        (freshRun (processGames envBigDoc false (freshRun []) [rowGame1]).cache)
        [rowGame1]).writes = 0 ∧
    (processGames envBigDoc false
        (freshRun (processGames envBigDoc false (freshRun []) [rowGame1]).cache)
        [rowGame1]).cachedCount = 0 ∧
    (processGames envBigDoc false
        (freshRun (processGames envBigDoc false (freshRun []) [rowGame1]).cache)
        [rowGame1]).skippedCount = [rowGame1].length ∧
    (processGames envBigDoc false
        (freshRun (processGames envBigDoc false (freshRun []) [rowGame1]).cache)
        [rowGame1]).cache = (processGames envBigDoc false (freshRun []) [rowGame1]).cache :=
  fetch_second_run_all_skipped envBigDoc (freshRun []) [rowGame1] (by
    intro r hr
    rw [List.mem_singleton] at hr
    subst hr
    exact ⟨1, 2024, 5000, rfl, rfl, rfl, by decide, rfl⟩)

mutual
/-- Helper: `_to_dict` output contains no `obj` node. -/
theorem isPlain_toDict : ∀ v : PyVal, isPlain (toDict v) = true
  | PyVal.atom _ => rfl
  | PyVal.dict kvs => by
    rw [toDict, isPlain]
    exact isPlainFields_toDictFields kvs
  | PyVal.list xs => by
    rw [toDict, isPlain]
    exact isPlainList_toDictList xs
  | PyVal.obj kvs => by
    rw [toDict, isPlain]
    exact isPlainFields_objFields kvs
/-- Helper: element-wise conversion of a list yields plain elements. -/
theorem isPlainList_toDictList : ∀ xs : PyList, isPlainList (toDictList xs) = true
  | PyList.nil => rfl
  | PyList.cons v rest => by
    rw [toDictList, isPlainList, isPlain_toDict v, isPlainList_toDictList rest]
    rfl
/-- Helper: item-wise conversion of dict items yields plain values. -/
theorem isPlainFields_toDictFields : ∀ kvs : PyFields, isPlainFields (toDictFields kvs) = true
  | PyFields.nil => rfl
  | PyFields.cons k v rest => by
    rw [toDictFields, isPlainFields, isPlain_toDict v, isPlainFields_toDictFields rest]
    rfl
/-- Helper: the filtered attribute comprehension yields plain values. -/
theorem isPlainFields_objFields : ∀ kvs : PyFields, isPlainFields (objFields kvs) = true
  | PyFields.nil => rfl
  | PyFields.cons k v rest => by
    rw [objFields]
    by_cases h : k.startsWith "_"
    · rw [if_pos h]
      exact isPlainFields_objFields rest
    · rw [if_neg h, isPlainFields, isPlain_toDict v, isPlainFields_objFields rest]
      rfl
end

mutual
/-- Helper: `_to_dict` is the identity on values already made only of
plain dicts, lists and primitives. -/
theorem toDict_plain : ∀ v : PyVal, isPlain v = true → toDict v = v
  | PyVal.atom _, _ => rfl
  | PyVal.dict kvs, h => by
    rw [toDict, toDictFields_plain kvs (by rwa [isPlain] at h)]
  | PyVal.list xs, h => by
    rw [toDict, toDictList_plain xs (by rwa [isPlain] at h)]
  | PyVal.obj _, h => by rw [isPlain] at h; cases h
/-- Helper: list version of `toDict_plain`. -/
theorem toDictList_plain : ∀ xs : PyList, isPlainList xs = true → toDictList xs = xs
  | PyList.nil, _ => rfl
  | PyList.cons v rest, h => by
    rw [isPlainList, Bool.and_eq_true] at h
    rw [toDictList, toDict_plain v h.1, toDictList_plain rest h.2]
/-- Helper: dict-items version of `toDict_plain`. -/
theorem toDictFields_plain : ∀ kvs : PyFields, isPlainFields kvs = true → toDictFields kvs = kvs
  | PyFields.nil, _ => rfl
  | PyFields.cons k v rest, h => by
    rw [isPlainFields, Bool.and_eq_true] at h
    rw [toDictFields, toDict_plain v h.1, toDictFields_plain rest h.2]
end

/-- C10: `_to_dict` is idempotent — applying it twice equals applying it
once — and it is the identity on values already consisting only of
plain dicts, lists and primitives. -/
theorem to_dict_idempotent (v : PyVal) :
    toDict (toDict v) = toDict v ∧ (isPlain v = true → toDict v = v) :=
  ⟨toDict_plain (toDict v) (isPlain_toDict v), toDict_plain v⟩

/-- A sample plain value: `{"a": "x", "b": ["y"]}`. -/
def samplePlainVal : PyVal :=
  PyVal.dict (PyFields.cons "a" (PyVal.atom "x")
    (PyFields.cons "b" (PyVal.list (PyList.cons (PyVal.atom "y") PyList.nil))
      PyFields.nil))

/-- C10 witness: the theorem applied to the sample plain value, both
hypotheses discharged concretely. -/
theorem to_dict_idempotent_witness :
    toDict (toDict samplePlainVal) = toDict samplePlainVal ∧
    toDict samplePlainVal = samplePlainVal :=
  ⟨(to_dict_idempotent samplePlainVal).1,
   (to_dict_idempotent samplePlainVal).2 rfl⟩
